import Mathlib

/-!
Verification of the Twitter/X retrieval client (`twitter_retrieval.py`).

Shallow embedding of the `TwitterRetrieval` class: the normalizer
`_process_response` / `_format_timestamp`, the `search_tweets` retry loop
(modelled as an event-trace-producing function over an oracle giving the
HTTP response of each attempt), and `get_bearer_token`.  Times are modelled
in whole epoch seconds (`Int`); ISO-8601 parsing is an abstract parameter
`parseIso : String → Option Int` returning epoch seconds.
-/

/-- A raw user record from `includes.users`.  The provider schema requires `id`
(the source indexes `user['id']` unconditionally); the remaining dictionary
entries may be absent. -/
structure RawUser where
  id : String
  name : Option String
  username : Option String
  verified : Option Bool
deriving DecidableEq

/-- The `public_metrics` object of a raw tweet; each count may be absent.
Counts are modelled as `Int`: JSON numbers are signed and the source applies
no sign check. -/
structure PublicMetrics where
  impression_count : Option Int
  like_count : Option Int
  retweet_count : Option Int
  reply_count : Option Int
deriving DecidableEq

/-- A raw tweet from the provider `data` array; every field is read with
`.get`, so all are optional. -/
structure RawTweet where
  id : Option String
  text : Option String
  author_id : Option String
  created_at : Option String
  public_metrics : Option PublicMetrics
deriving DecidableEq

/-- The `includes` object of a raw payload. -/
structure Includes where
  users : Option (List RawUser)
deriving DecidableEq

/-- A raw provider payload: optional `data` array and optional `includes`. -/
structure RawPayload where
  data : Option (List RawTweet)
  includes : Option Includes
deriving DecidableEq

/-- The normalized tweet record (`formatted_tweet` in `_process_response`).
`id` and `text` are copied through unchanged (hence still optional). -/
structure TweetRecord where
  id : Option String
  text : Option String
  author : String
  username : String
  verified : Bool
  timestamp : String
  views : Int
  likes : Int
  retweets : Int
  replies : Int
  url : String
deriving DecidableEq

/-- The dictionary returned by `search_tweets` on success. -/
structure SearchResult where
  tweets : List TweetRecord
  totalResults : Nat
  query : String
deriving DecidableEq

/-- Python f-string interpolation of a value that may be `None`
(`f"...{x}..."` renders `None` as the text `None`). -/
def pyStr (o : Option String) : String :=
  match o with
  | some s => s
  | none => "None"

/-- Model of `_format_timestamp` (lines 265-294).  `parseIso` abstracts
`datetime.fromisoformat` (after the `Z` replacement), returning epoch
seconds, with `none` for a parse failure (the `except` branch returns the
input string unchanged); `now` is `datetime.now()` in epoch seconds. -/
def format_timestamp (parseIso : String → Option Int) (now : Int)
    (timestamp_str : Option String) : String :=
  match timestamp_str with
  | none => "Unknown"
  | some s =>
    match parseIso s with
    | none => s
    | some t =>
      let seconds := now - t
      if seconds < 60 then toString seconds ++ "s ago"
      else if seconds < 3600 then toString (seconds / 60) ++ "m ago"
      else if seconds < 86400 then toString (seconds / 3600) ++ "h ago"
      else toString (seconds / 86400) ++ "d ago"

/-- The `users_dict` lookup of `_process_response` (lines 234-243):
`users_dict[user['id']] = user` is inserted in list order, so a later user
record with the same id overwrites an earlier one (hence the reversed
search); `users_dict.get(author_id, {})` finds nothing when `author_id` is
`None` (dictionary keys are the string ids). -/
def lookupUser (users : List RawUser) (author_id : Option String) : Option RawUser :=
  match author_id with
  | none => none
  | some a => users.reverse.find? (fun u => u.id == a)

/-- The body of the `for tweet in data['data']` loop of `_process_response`
(lines 241-261): builds one `formatted_tweet`.  A chained
`author_data.get(field, default)` where `author_data` may itself be the
empty fallback dictionary is `(author_data.bind field).getD default`. -/
def format_tweet (parseIso : String → Option Int) (now : Int)
    (users : List RawUser) (tweet : RawTweet) : TweetRecord :=
  let author_data := lookupUser users tweet.author_id
  let metrics := tweet.public_metrics
  { id := tweet.id
    text := tweet.text
    author := (author_data.bind RawUser.name).getD "Unknown"
    username := "@" ++ (author_data.bind RawUser.username).getD "unknown"
    verified := (author_data.bind RawUser.verified).getD false
    timestamp := format_timestamp parseIso now tweet.created_at
    views := (metrics.bind PublicMetrics.impression_count).getD 0
    likes := (metrics.bind PublicMetrics.like_count).getD 0
    retweets := (metrics.bind PublicMetrics.retweet_count).getD 0
    replies := (metrics.bind PublicMetrics.reply_count).getD 0
    url := "https://twitter.com/" ++ (author_data.bind RawUser.username).getD "i"
        ++ "/status/" ++ pyStr tweet.id }

/-- The user list seen by `_process_response` (empty unless both `includes`
and `includes.users` are present). -/
def usersOf (data : RawPayload) : List RawUser :=
  match data.includes with
  | some inc => inc.users.getD []
  | none => []

/-- Model of `_process_response` (lines 220-263): normalizes every tweet of
the `data` array in order.  The function is total: every lookup has a
default, matching the source where every access uses `.get` with a
fallback. -/
def process_response (parseIso : String → Option Int) (now : Int)
    (data : RawPayload) : List TweetRecord :=
  (data.data.getD []).map (format_tweet parseIso now (usersOf data))

/-- The sort order of line 191: `key=lambda tweet: tweet['views'],
reverse=True`, i.e. descending views. -/
def viewsGE (a b : TweetRecord) : Prop := b.views ≤ a.views

instance : DecidableRel viewsGE := fun a b => Int.decLe b.views a.views

instance : IsTotal TweetRecord viewsGE := ⟨fun a b => Int.le_total b.views a.views⟩

instance : IsTrans TweetRecord viewsGE := ⟨fun _ _ _ h1 h2 => le_trans h2 h1⟩

/-- Model of `processed_tweets.sort(key=lambda tweet: tweet['views'],
reverse=True)` (line 191).  Python `list.sort` is stable, and with
`reverse=True` it yields the unique list that is sorted descending by the
key and keeps equal-key elements in input order; stable insertion sort with
the total preorder `viewsGE` produces exactly that list. -/
def sortByViewsDesc (l : List TweetRecord) : List TweetRecord :=
  List.insertionSort viewsGE l

/-- The success branch of `search_tweets` (lines 176-198): an absent or
empty `data` array yields the empty result (not an error); otherwise the
processed tweets are sorted by views descending and counted. -/
def buildResult (parseIso : String → Option Int) (now : Int) (query : String)
    (data : RawPayload) : SearchResult :=
  match data.data with
  | none => { tweets := [], totalResults := 0, query := query }
  | some [] => { tweets := [], totalResults := 0, query := query }
  | some _ =>
    let sorted := sortByViewsDesc (process_response parseIso now data)
    { tweets := sorted, totalResults := sorted.length, query := query }

/-- The query parameters built at lines 137-143 (only the two that claims
depend on; the fixed field-expansion strings are constants). -/
structure ReqParams where
  query : String
  max_results : Int
deriving DecidableEq

/-- Observable side effects of a call, in order: the OAuth2 token POST
(line 64), the rate-gate sleep (line 127), a search GET (line 149) with its
parameters, and a back-off sleep (line 171) with its duration in seconds. -/
inductive Event where
  | tokenRequest : Event
  | throttle : Int → Event
  | httpGet : ReqParams → Event
  | sleep : Int → Event
deriving DecidableEq

/-- One HTTP response of the search endpoint, as the loop observes it:
status code, the `x-rate-limit-reset` header when present and non-empty
(epoch seconds), and the JSON body (read only on a successful status). -/
structure HttpResp where
  status : Nat
  reset : Option Int
  body : RawPayload
deriving DecidableEq

/-- How a `search_tweets` call ends: the returned dictionary, a non-429
`raise_for_status` error propagated by the handler at lines 204-209, or the
rate-limit `HTTPError` of line 218. -/
inductive SearchOutcome where
  | success : SearchResult → SearchOutcome
  | httpError : Nat → SearchOutcome
  | rateLimitExceeded : SearchOutcome
deriving DecidableEq

/-- The JSON body of the token endpoint response (`token_data`). -/
structure TokenResp where
  access_token : Option String
deriving DecidableEq

/-- The mutable fields of a `TwitterRetrieval` instance that the modelled
claims touch. -/
structure ClientState where
  bearer_token : Option String
  last_request_time : Option Int
  rate_limit_wait : Int
deriving DecidableEq

/-- Python truthiness of `self.bearer_token`: `None` and the empty string
are falsy. -/
def isTruthy (o : Option String) : Bool :=
  match o with
  | none => false
  | some s => s != ""

/-- Model of `get_bearer_token` (lines 42-75), success path: it
unconditionally performs the OAuth2 POST and caches whatever
`access_token` the response body carries; the function itself never
consults the cache. -/
def get_bearer_token (st : ClientState) (tok : TokenResp) :
    List Event × ClientState :=
  ([Event.tokenRequest], { st with bearer_token := tok.access_token })

/-- `self.min_request_interval` (line 37), in whole seconds. -/
def min_request_interval : Int := 1

/-- One run of the `while retry_count <= max_retries` loop (lines 145-218),
entered with retry count `rc`.  `oracle k` is the response of the attempt
made at retry count `k` (the counter increases by exactly one on every
iteration that continues, so attempt and counter coincide); `nowAt k` is
the clock read while handling that attempt.  Since every continuing
iteration increases the counter, the loop runs at most `max_retries + 1`
iterations; `fuel` is that bound, kept equal to `max_retries + 1 - rc`, so
the recursion is structural (at `fuel = 0` the guard `rc <= max_retries`
has just failed and line 218 raises, which is also what the fuel-less loop
does there).  On a 429 with the budget exhausted, the `HTTPError` raised at
line 156 is caught by the 429 branch of the handler at lines 200-203, which
`continue`s; the guard then fails and line 218 raises, with no further
sleep and no further request. -/
def searchGo (rlw : Int) (max_retries : Nat) (params : ReqParams)
    (oracle : Nat → HttpResp) (parseIso : String → Option Int)
    (nowAt : Nat → Int) (query : String) :
    Nat → Nat → List Event × SearchOutcome
  | 0, _ => ([], SearchOutcome.rateLimitExceeded)
  | fuel + 1, rc =>
    if rc ≤ max_retries then
      let resp := oracle rc
      if resp.status = 429 then
        let rest := searchGo rlw max_retries params oracle parseIso nowAt query fuel (rc + 1)
        if rc + 1 ≤ max_retries then
          let wait : Int :=
            match resp.reset with
            | some r => max (r - nowAt rc) rlw
            | none => rlw * ((rc : Int) + 1)
          (Event.httpGet params :: Event.sleep wait :: rest.1, rest.2)
        else
          (Event.httpGet params :: rest.1, rest.2)
      else if 400 ≤ resp.status ∧ resp.status < 600 then
        ([Event.httpGet params], SearchOutcome.httpError resp.status)
      else
        ([Event.httpGet params],
          SearchOutcome.success (buildResult parseIso (nowAt rc) query resp.body))
    else
      ([], SearchOutcome.rateLimitExceeded)

/-- Model of `search_tweets` (lines 104-218): fetch the token only when no
truthy token is cached (lines 117-119), apply the rate gate once before the
loop (lines 121-127, `nowStart` being the `time.time()` reading), build the
clamped query parameters (lines 137-143), then run the retry loop.  The
function contains no validation of `query`. -/
def search_tweets (st : ClientState) (query : String) (max_results : Int)
    (max_retries : Nat) (tok : TokenResp) (oracle : Nat → HttpResp)
    (parseIso : String → Option Int) (nowStart : Int) (nowAt : Nat → Int) :
    List Event × SearchOutcome :=
  let fetch := if isTruthy st.bearer_token then ([], st) else get_bearer_token st tok
  let gate : List Event :=
    match st.last_request_time with
    | none => []
    | some t =>
      if nowStart - t < min_request_interval then
        [Event.throttle (min_request_interval - (nowStart - t))]
      else []
  let params : ReqParams := { query := query, max_results := min (max max_results 10) 100 }
  let run := searchGo st.rate_limit_wait max_retries params oracle parseIso nowAt query
      (max_retries + 1) 0
  (fetch.1 ++ (gate ++ run.1), run.2)

/-- Recognizer for search GET events. -/
def isHttpGet : Event → Bool
  | Event.httpGet _ => true
  | _ => false

/-- Recognizer for token POST events. -/
def isTokenRequest : Event → Bool
  | Event.tokenRequest => true
  | _ => false

/-- The back-off sleep durations of a trace, in order (rate-gate throttle
waits are a different constructor and are not included). -/
def backoffSleeps (evs : List Event) : List Int :=
  evs.filterMap (fun e => match e with | Event.sleep w => some w | _ => none)

/-- Number of search HTTP requests in a trace. -/
def httpCount (evs : List Event) : Nat := evs.countP isHttpGet

/-- Number of token-endpoint requests in a trace. -/
def tokenCount (evs : List Event) : Nat := evs.countP isTokenRequest

/-- The events of a `search_tweets` call that precede the retry loop: the
conditional token fetch and the conditional rate-gate wait. -/
def preEvents (st : ClientState) (nowStart : Int) : List Event :=
  (if isTruthy st.bearer_token then [] else [Event.tokenRequest]) ++
    (match st.last_request_time with
     | none => []
     | some t =>
       if nowStart - t < min_request_interval then
         [Event.throttle (min_request_interval - (nowStart - t))]
       else [])

theorem search_tweets_eq (st : ClientState) (query : String) (max_results : Int)
    (max_retries : Nat) (tok : TokenResp) (oracle : Nat → HttpResp)
    (parseIso : String → Option Int) (nowStart : Int) (nowAt : Nat → Int) :
    search_tweets st query max_results max_retries tok oracle parseIso nowStart nowAt =
      (preEvents st nowStart ++
          (searchGo st.rate_limit_wait max_retries
            { query := query, max_results := min (max max_results 10) 100 }
            oracle parseIso nowAt query (max_retries + 1) 0).1,
        (searchGo st.rate_limit_wait max_retries
            { query := query, max_results := min (max max_results 10) 100 }
            oracle parseIso nowAt query (max_retries + 1) 0).2) := by
  unfold search_tweets preEvents get_bearer_token
  by_cases h : isTruthy st.bearer_token <;>
    cases st.last_request_time <;>
      simp [h]

theorem backoffSleeps_preEvents (st : ClientState) (nowStart : Int) :
    backoffSleeps (preEvents st nowStart) = [] := by
  unfold preEvents backoffSleeps
  by_cases h : isTruthy st.bearer_token <;>
    cases st.last_request_time <;>
      simp [h]

theorem httpCount_preEvents (st : ClientState) (nowStart : Int) :
    httpCount (preEvents st nowStart) = 0 := by
  unfold preEvents httpCount
  by_cases h : isTruthy st.bearer_token <;>
    cases st.last_request_time <;>
      simp [h, isHttpGet]

theorem tokenCount_preEvents (st : ClientState) (nowStart : Int) :
    tokenCount (preEvents st nowStart) =
      (if isTruthy st.bearer_token then 0 else 1) := by
  unfold preEvents tokenCount
  by_cases h : isTruthy st.bearer_token <;>
    cases st.last_request_time <;>
      simp [h, isTokenRequest]

theorem tokenCount_preEvents_tail (st : ClientState) (nowStart : Int) :
    tokenCount ((preEvents st nowStart).drop 1) = 0 := by
  unfold preEvents tokenCount
  by_cases h : isTruthy st.bearer_token <;>
    cases st.last_request_time <;>
      simp [h, isTokenRequest] <;> split_ifs <;> simp [isTokenRequest]

theorem filter_views_orderedInsert (x : TweetRecord) (l : List TweetRecord) (v : Int) :
    (List.orderedInsert viewsGE x l).filter (fun t => decide (t.views = v)) =
      if x.views = v then x :: l.filter (fun t => decide (t.views = v))
      else l.filter (fun t => decide (t.views = v)) := by
  induction l with
  | nil =>
    by_cases hx : x.views = v <;> simp [hx]
  | cons b t ih =>
    rw [List.orderedInsert]
    by_cases hxb : viewsGE x b
    · rw [if_pos hxb]
      by_cases hx : x.views = v <;> simp [List.filter_cons, hx]
    · rw [if_neg hxb]
      have hlt : x.views < b.views := lt_of_not_le (fun h => hxb h)
      by_cases hx : x.views = v
      · have hb : ¬(b.views = v) := by omega
        simp [List.filter_cons, hx, hb, ih]
      · by_cases hb : b.views = v <;> simp [List.filter_cons, hx, hb, ih]

theorem filter_views_sort (l : List TweetRecord) (v : Int) :
    (sortByViewsDesc l).filter (fun t => decide (t.views = v)) =
      l.filter (fun t => decide (t.views = v)) := by
  induction l with
  | nil => rfl
  | cons b t ih =>
    show (List.orderedInsert viewsGE b (List.insertionSort viewsGE t)).filter _ = _
    rw [filter_views_orderedInsert]
    by_cases hb : b.views = v <;>
      simp [List.filter_cons, hb, show (List.insertionSort viewsGE t).filter
        (fun tw => decide (tw.views = v)) = t.filter (fun tw => decide (tw.views = v)) from ih]

theorem pairwise_sortByViewsDesc (l : List TweetRecord) :
    List.Pairwise (fun a b => b.views ≤ a.views) (sortByViewsDesc l) :=
  List.sorted_insertionSort viewsGE l

theorem buildResult_invariants (parseIso : String → Option Int) (now : Int)
    (query : String) (data : RawPayload) :
    (buildResult parseIso now query data).totalResults =
        (buildResult parseIso now query data).tweets.length ∧
      (buildResult parseIso now query data).query = query := by
  unfold buildResult
  cases hd : data.data with
  | none => simp
  | some l => cases l <;> simp

theorem buildResult_pairwise (parseIso : String → Option Int) (now : Int)
    (query : String) (data : RawPayload) :
    List.Pairwise (fun a b => b.views ≤ a.views)
      (buildResult parseIso now query data).tweets := by
  unfold buildResult
  cases hd : data.data with
  | none => simp
  | some l =>
    cases l with
    | nil => simp
    | cons a t => exact pairwise_sortByViewsDesc _

theorem buildResult_filter (parseIso : String → Option Int) (now : Int)
    (query : String) (data : RawPayload) (v : Int) :
    (buildResult parseIso now query data).tweets.filter (fun t => decide (t.views = v)) =
      (process_response parseIso now data).filter (fun t => decide (t.views = v)) := by
  unfold buildResult
  cases hd : data.data with
  | none => simp [process_response, hd]
  | some l =>
    cases l with
    | nil => simp [process_response, hd]
    | cons a t => exact filter_views_sort _ _

theorem searchGo_outcome_of_429 (rlw : Int) (mr : Nat) (params : ReqParams)
    (oracle : Nat → HttpResp) (pI : String → Option Int) (nowAt : Nat → Int)
    (query : String) (h : ∀ k, (oracle k).status = 429) :
    ∀ fuel rc, (searchGo rlw mr params oracle pI nowAt query fuel rc).2 =
      SearchOutcome.rateLimitExceeded := by
  intro fuel
  induction fuel with
  | zero => intro rc; rfl
  | succ n ih =>
    intro rc
    by_cases hg : rc ≤ mr
    · by_cases hb : rc + 1 ≤ mr <;> simp [searchGo, hg, hb, h rc, ih]
    · simp [searchGo, hg]

theorem searchGo_httpCount_of_429 (rlw : Int) (mr : Nat) (params : ReqParams)
    (oracle : Nat → HttpResp) (pI : String → Option Int) (nowAt : Nat → Int)
    (query : String) (h : ∀ k, (oracle k).status = 429) :
    ∀ fuel rc, rc + fuel = mr + 1 →
      httpCount (searchGo rlw mr params oracle pI nowAt query fuel rc).1 = fuel := by
  intro fuel
  induction fuel with
  | zero => intro rc _; rfl
  | succ n ih =>
    intro rc hrc
    have hg : rc ≤ mr := by omega
    by_cases hb : rc + 1 ≤ mr <;>
      simp [searchGo, hg, hb, h rc, httpCount, List.countP_cons, isHttpGet] <;>
        have := ih (rc + 1) (by omega) <;>
          simp [httpCount] at this <;> omega

/-- The wait the loop computes before the retry made at counter `n + 1`,
from the 429 response observed at counter `n` (lines 161-168). -/
def waitSpec (rlw : Int) (oracle : Nat → HttpResp) (nowAt : Nat → Int) (n : Nat) : Int :=
  match (oracle n).reset with
  | some r => max (r - nowAt n) rlw
  | none => rlw * ((n : Int) + 1)

theorem searchGo_sleeps_of_429 (rlw : Int) (mr : Nat) (params : ReqParams)
    (oracle : Nat → HttpResp) (pI : String → Option Int) (nowAt : Nat → Int)
    (query : String) (m : Nat) (hm : m ≤ mr)
    (h : ∀ k, k < m → (oracle k).status = 429) :
    ∀ fuel rc, rc + fuel = mr + 1 → rc ≤ m →
      (backoffSleeps (searchGo rlw mr params oracle pI nowAt query fuel rc).1).take (m - rc) =
        (List.range' rc (m - rc)).map (waitSpec rlw oracle nowAt) := by
  intro fuel
  induction fuel with
  | zero => intro rc hrc hrm; omega
  | succ n ih =>
    intro rc hrc hrm
    have hg : rc ≤ mr := by omega
    rcases Nat.eq_or_lt_of_le hrm with heq | hlt
    · subst heq
      simp
    · have h429 := h rc hlt
      have hb : rc + 1 ≤ mr := by omega
      have hmrc : m - rc = (m - (rc + 1)) + 1 := by omega
      have ihr := ih (rc + 1) (by omega) (by omega)
      simp only [searchGo, if_pos hg, h429, if_pos rfl, if_pos hb, backoffSleeps,
        List.filterMap_cons, hmrc, List.take_succ_cons, List.range'_succ, List.map_cons]
      exact congrArg (List.cons _) ihr

theorem searchGo_success_eq (rlw : Int) (mr : Nat) (params : ReqParams)
    (oracle : Nat → HttpResp) (pI : String → Option Int) (nowAt : Nat → Int)
    (query : String) :
    ∀ fuel rc evs r,
      searchGo rlw mr params oracle pI nowAt query fuel rc = (evs, SearchOutcome.success r) →
      ∃ k, ¬(oracle k).status = 429 ∧ r = buildResult pI (nowAt k) query (oracle k).body := by
  intro fuel
  induction fuel with
  | zero =>
    intro rc evs r h
    exact absurd (congrArg Prod.snd h) (by simp [searchGo])
  | succ n ih =>
    intro rc evs r h
    by_cases hg : rc ≤ mr
    · by_cases h429 : (oracle rc).status = 429
      · by_cases hb : rc + 1 ≤ mr
        · simp only [searchGo, if_pos hg, if_pos h429, if_pos hb, Prod.mk.injEq] at h
          exact ih (rc + 1) _ r (by rw [← h.2])
        · simp only [searchGo, if_pos hg, if_pos h429, if_neg hb, Prod.mk.injEq] at h
          exact ih (rc + 1) _ r (by rw [← h.2])
      · by_cases he : 400 ≤ (oracle rc).status ∧ (oracle rc).status < 600
        · simp only [searchGo, if_pos hg, if_neg h429, if_pos he] at h
          exact absurd (congrArg Prod.snd h) (by simp)
        · simp only [searchGo, if_pos hg, if_neg h429, if_neg he] at h
          have h2 := congrArg Prod.snd h
          simp only at h2
          exact ⟨rc, h429, (SearchOutcome.success.injEq _ _).mp h2.symm⟩
    · simp only [searchGo, if_neg hg] at h
      exact absurd (congrArg Prod.snd h) (by simp)

theorem searchGo_params_mem (rlw : Int) (mr : Nat) (params : ReqParams)
    (oracle : Nat → HttpResp) (pI : String → Option Int) (nowAt : Nat → Int)
    (query : String) :
    ∀ fuel rc p,
      Event.httpGet p ∈ (searchGo rlw mr params oracle pI nowAt query fuel rc).1 →
      p = params := by
  intro fuel
  induction fuel with
  | zero => intro rc p h; simp [searchGo] at h
  | succ n ih =>
    intro rc p h
    by_cases hg : rc ≤ mr
    · by_cases h429 : (oracle rc).status = 429
      · by_cases hb : rc + 1 ≤ mr
        · simp only [searchGo, if_pos hg, if_pos h429, if_pos hb, List.mem_cons] at h
          rcases h with h | h | h
          · exact (Event.httpGet.injEq _ _).mp h
          · exact absurd h (by simp)
          · exact ih (rc + 1) p h
        · simp only [searchGo, if_pos hg, if_pos h429, if_neg hb, List.mem_cons] at h
          rcases h with h | h
          · exact (Event.httpGet.injEq _ _).mp h
          · exact ih (rc + 1) p h
      · by_cases he : 400 ≤ (oracle rc).status ∧ (oracle rc).status < 600
        · simp only [searchGo, if_pos hg, if_neg h429, if_pos he, List.mem_cons] at h
          rcases h with h | h
          · exact (Event.httpGet.injEq _ _).mp h
          · exact absurd h (by simp)
        · simp only [searchGo, if_pos hg, if_neg h429, if_neg he, List.mem_cons] at h
          rcases h with h | h
          · exact (Event.httpGet.injEq _ _).mp h
          · exact absurd h (by simp)
    · simp [searchGo, hg] at h

theorem searchGo_no_token (rlw : Int) (mr : Nat) (params : ReqParams)
    (oracle : Nat → HttpResp) (pI : String → Option Int) (nowAt : Nat → Int)
    (query : String) :
    ∀ fuel rc, tokenCount (searchGo rlw mr params oracle pI nowAt query fuel rc).1 = 0 := by
  intro fuel
  induction fuel with
  | zero => intro rc; rfl
  | succ n ih =>
    intro rc
    have hrec := ih (rc + 1)
    simp only [tokenCount] at hrec
    by_cases hg : rc ≤ mr
    · by_cases h429 : (oracle rc).status = 429
      · by_cases hb : rc + 1 ≤ mr
        · simp only [searchGo, if_pos hg, if_pos h429, if_pos hb, tokenCount,
            List.countP_cons, hrec, isTokenRequest]
          simp
        · simp only [searchGo, if_pos hg, if_pos h429, if_neg hb, tokenCount,
            List.countP_cons, hrec, isTokenRequest]
          simp
      · by_cases he : 400 ≤ (oracle rc).status ∧ (oracle rc).status < 600 <;>
          simp [searchGo, hg, h429, he, tokenCount, List.countP_cons, isTokenRequest]
    · simp [searchGo, hg, tokenCount]

theorem backoffSleeps_append (a b : List Event) :
    backoffSleeps (a ++ b) = backoffSleeps a ++ backoffSleeps b := by
  simp [backoffSleeps]

theorem httpCount_append (a b : List Event) :
    httpCount (a ++ b) = httpCount a + httpCount b := by
  simp [httpCount, List.countP_append]

theorem tokenCount_append (a b : List Event) :
    tokenCount (a ++ b) = tokenCount a + tokenCount b := by
  simp [tokenCount, List.countP_append]

theorem tokenCount_drop_le (l : List Event) (n : Nat) :
    tokenCount (l.drop n) ≤ tokenCount l :=
  List.Sublist.countP_le _ (List.drop_sublist n l)

theorem searchGo_httpCount_pos (rlw : Int) (mr : Nat) (params : ReqParams)
    (oracle : Nat → HttpResp) (pI : String → Option Int) (nowAt : Nat → Int)
    (query : String) (fuel rc : Nat) (h1 : rc ≤ mr) :
    1 ≤ httpCount (searchGo rlw mr params oracle pI nowAt query (fuel + 1) rc).1 := by
  by_cases h429 : (oracle rc).status = 429
  · by_cases hb : rc + 1 ≤ mr <;>
      simp [searchGo, h1, h429, hb, httpCount, List.countP_cons, isHttpGet]
  · by_cases he : 400 ≤ (oracle rc).status ∧ (oracle rc).status < 600 <;>
      simp [searchGo, h1, h429, he, httpCount, List.countP_cons, isHttpGet]

/-- Arithmetic characterization of `min(max(x, 10), 100)` (line 139). -/
theorem clamp_spec (x : Int) :
    10 ≤ min (max x 10) 100 ∧ min (max x 10) 100 ≤ 100 ∧
      (x < 10 → min (max x 10) 100 = 10) ∧
      (100 < x → min (max x 10) 100 = 100) ∧
      (10 ≤ x → x ≤ 100 → min (max x 10) 100 = x) := by
  rcases le_total x 10 with h | h <;> rcases le_total x 100 with h2 | h2 <;>
    simp [min_def, max_def] <;> split_ifs <;> omega

/-- An empty JSON object body (used as the body of non-success fixtures). -/
def emptyPayload : RawPayload := { data := none, includes := none }

/-- A 429 response with no reset header. -/
def resp429 : HttpResp := { status := 429, reset := none, body := emptyPayload }

/-- A provider that answers 429 on every attempt. -/
def oracle429 : Nat → HttpResp := fun _ => resp429

/-- An ISO parser that always fails (timestamps are irrelevant to the
properties exercised on the fixtures). -/
def noParse : String → Option Int := fun _ => none

/-- A client state holding a cached (truthy) bearer token. -/
def stCached : ClientState :=
  { bearer_token := some "tok", last_request_time := none, rate_limit_wait := 60 }

/-- A freshly constructed client state (no token yet). -/
def stFresh : ClientState :=
  { bearer_token := none, last_request_time := none, rate_limit_wait := 60 }

/-- A successful token-exchange body. -/
def tokOk : TokenResp := { access_token := some "tok" }

/-- A provider that always succeeds with an empty payload. -/
def oracleEmpty : Nat → HttpResp := fun _ => { status := 200, reset := none, body := emptyPayload }

/-- A raw tweet whose `author_id` has no matching user record and whose
`public_metrics` object is absent. -/
def orphanTweet : RawTweet :=
  { id := some "123", text := some "hello", author_id := some "x",
    created_at := none, public_metrics := none }

/-- A raw tweet with 50 impressions. -/
def tweet50 : RawTweet :=
  { id := some "1", text := some "a", author_id := none, created_at := none,
    public_metrics := some ⟨some 50, none, none, none⟩ }

/-- A raw tweet with 200 impressions. -/
def tweet200 : RawTweet :=
  { id := some "2", text := some "b", author_id := none, created_at := none,
    public_metrics := some ⟨some 200, none, none, none⟩ }

/-- A payload listing the 50-impression tweet before the 200-impression
tweet. -/
def twoPayload : RawPayload := { data := some [tweet50, tweet200], includes := none }

/-- A provider that always succeeds with `twoPayload`. -/
def oracleTwo : Nat → HttpResp := fun _ => { status := 200, reset := none, body := twoPayload }

/-- A raw tweet whose provider-supplied `impression_count` is negative. -/
def negTweet : RawTweet :=
  { id := some "1", text := some "x", author_id := none, created_at := none,
    public_metrics := some ⟨some (-1), none, none, none⟩ }

/-- A payload containing only `negTweet`. -/
def negPayload : RawPayload := { data := some [negTweet], includes := none }

/-- A raw tweet with a non-negative `impression_count`. -/
def posTweet : RawTweet :=
  { id := some "1", text := some "x", author_id := none, created_at := none,
    public_metrics := some ⟨some 5, none, none, none⟩ }

/-- A payload containing only `posTweet`. -/
def posPayload : RawPayload := { data := some [posTweet], includes := none }

/-- A provider answering 429 on every attempt, with a reset header only on
attempt 1. -/
def oracleReset : Nat → HttpResp := fun k =>
  { status := 429, reset := if k = 1 then some 1000 else none, body := emptyPayload }

/-- Every search GET event of a `search_tweets` call carries exactly the
parameters built at lines 137-143. -/
theorem search_tweets_params_mem (st : ClientState) (query : String)
    (max_results : Int) (max_retries : Nat) (tok : TokenResp)
    (oracle : Nat → HttpResp) (parseIso : String → Option Int)
    (nowStart : Int) (nowAt : Nat → Int) (p : ReqParams)
    (hp : Event.httpGet p ∈
      (search_tweets st query max_results max_retries tok oracle parseIso
        nowStart nowAt).1) :
    p = { query := query, max_results := min (max max_results 10) 100 } := by
  rw [search_tweets_eq] at hp
  rw [List.mem_append] at hp
  rcases hp with hp | hp
  · exfalso
    have h0 := httpCount_preEvents st nowStart
    rw [httpCount, List.countP_eq_zero] at h0
    have h1 := h0 _ hp
    simp [isHttpGet] at h1
  · exact searchGo_params_mem _ _ _ _ _ _ _ _ _ p hp

/-- C5: for every call, every search GET sends the result-count parameter
clamped to [10, 100] (line 139: `min(max(max_results, 10), 100)`): inputs
below 10 are raised to 10, inputs above 100 lowered to 100, in-range inputs
sent unchanged; the query is echoed into the parameters. -/
theorem c5_max_results_clamped (st : ClientState) (query : String)
    (max_results : Int) (max_retries : Nat) (tok : TokenResp)
    (oracle : Nat → HttpResp) (parseIso : String → Option Int)
    (nowStart : Int) (nowAt : Nat → Int) (p : ReqParams)
    (hp : Event.httpGet p ∈
      (search_tweets st query max_results max_retries tok oracle parseIso
        nowStart nowAt).1) :
    p.max_results = min (max max_results 10) 100 ∧
      10 ≤ p.max_results ∧ p.max_results ≤ 100 ∧
      (max_results < 10 → p.max_results = 10) ∧
      (100 < max_results → p.max_results = 100) ∧
      (10 ≤ max_results → max_results ≤ 100 → p.max_results = max_results) ∧
      p.query = query := by
  have hpp := search_tweets_params_mem st query max_results max_retries tok oracle
    parseIso nowStart nowAt p hp
  subst hpp
  have hc := clamp_spec max_results
  exact ⟨rfl, hc.1, hc.2.1, hc.2.2.1, hc.2.2.2.1, hc.2.2.2.2, rfl⟩

theorem c5_witness :
    ({ query := "q", max_results := 10 } : ReqParams).max_results = 10 ∧
      ({ query := "q", max_results := 10 } : ReqParams).query = "q" := by
  have h := c5_max_results_clamped stCached "q" 5 0 tokOk oracle429 noParse 0
      (fun _ => 0) { query := "q", max_results := 10 } (by decide)
  exact ⟨h.2.2.2.1 (by decide), h.2.2.2.2.2.2⟩

/-- C7: the normalizer (a total function by construction — every access in
`_process_response` carries a default) maps a tweet whose `author_id` has no
matching user record to the sentinel identity `author = "Unknown"`,
`username = "@unknown"`, `verified = false`, and defaults every missing
engagement-metric field to 0 — in particular an absent `impression_count`
yields `views = 0`. -/
theorem c7_normalizer_defaults (parseIso : String → Option Int) (now : Int)
    (users : List RawUser) (tweet : RawTweet) :
    (lookupUser users tweet.author_id = none →
        (format_tweet parseIso now users tweet).author = "Unknown" ∧
        (format_tweet parseIso now users tweet).username = "@unknown" ∧
        (format_tweet parseIso now users tweet).verified = false) ∧
      (tweet.public_metrics.bind PublicMetrics.impression_count = none →
        (format_tweet parseIso now users tweet).views = 0) ∧
      (tweet.public_metrics.bind PublicMetrics.like_count = none →
        (format_tweet parseIso now users tweet).likes = 0) ∧
      (tweet.public_metrics.bind PublicMetrics.retweet_count = none →
        (format_tweet parseIso now users tweet).retweets = 0) ∧
      (tweet.public_metrics.bind PublicMetrics.reply_count = none →
        (format_tweet parseIso now users tweet).replies = 0) := by
  refine ⟨fun h => ?_, fun h => ?_, fun h => ?_, fun h => ?_, fun h => ?_⟩ <;>
    simp [format_tweet, h]

theorem c7_witness :
    (format_tweet noParse 0 [] orphanTweet).author = "Unknown" ∧
      (format_tweet noParse 0 [] orphanTweet).username = "@unknown" ∧
      (format_tweet noParse 0 [] orphanTweet).verified = false ∧
      (format_tweet noParse 0 [] orphanTweet).views = 0 := by
  have h := c7_normalizer_defaults noParse 0 [] orphanTweet
  exact ⟨(h.1 (by decide)).1, (h.1 (by decide)).2.1, (h.1 (by decide)).2.2,
    h.2.1 (by decide)⟩

/-- C8 counterexample: the code copies a provider-supplied
`impression_count` into `views` without any sign check, so a payload whose
tweet carries `impression_count = -1` is normalized to a record with
`views = -1 < 0`, refuting the claim that `views >= 0` holds with no
assumption on the sign of the supplied count. -/
theorem c8_counterexample :
    (process_response noParse 0 negPayload).map TweetRecord.views = [-1] ∧
      ¬(0 ≤ (-1 : Int)) := by decide

/-- C8 amended: `views` equals the provider-supplied `impression_count`
(defaulting to 0 when absent), so every produced record has `views >= 0`
provided every supplied `impression_count` in the payload is non-negative;
the code itself performs no clamping. -/
theorem c8_views_nonneg_amended (parseIso : String → Option Int) (now : Int)
    (data : RawPayload)
    (h : ∀ t ∈ data.data.getD [], ∀ ic,
      t.public_metrics.bind PublicMetrics.impression_count = some ic → 0 ≤ ic) :
    ∀ rec ∈ process_response parseIso now data, 0 ≤ rec.views := by
  intro rec hrec
  rw [process_response, List.mem_map] at hrec
  obtain ⟨t, ht, rfl⟩ := hrec
  show 0 ≤ (t.public_metrics.bind PublicMetrics.impression_count).getD 0
  cases hm : t.public_metrics.bind PublicMetrics.impression_count with
  | none => simp
  | some ic => simpa using h t ht ic hm

theorem c8_witness :
    (0 : Int) ≤ (format_tweet noParse 0 (usersOf posPayload) posTweet).views :=
  c8_views_nonneg_amended noParse 0 posPayload (by decide) _ (by decide)

/-- C10: when the `author_id` has no matching user record, the URL's handle
segment falls back to `"i"` (line 258) while the record's `username` field
uses the distinct sentinel `"unknown"` (line 251), so the URL equals
`https://twitter.com/i/status/<id>` and differs from the URL that the
record's own handle would produce. -/
theorem c10_url_fallback (parseIso : String → Option Int) (now : Int)
    (users : List RawUser) (tweet : RawTweet)
    (h : lookupUser users tweet.author_id = none) :
    (format_tweet parseIso now users tweet).url =
        "https://twitter.com/i/status/" ++ pyStr tweet.id ∧
      (format_tweet parseIso now users tweet).username = "@unknown" ∧
      (format_tweet parseIso now users tweet).url ≠
        "https://twitter.com/unknown/status/" ++ pyStr tweet.id := by
  have hurl : (format_tweet parseIso now users tweet).url =
      "https://twitter.com/i/status/" ++ pyStr tweet.id := by
    show "https://twitter.com/" ++
        ((lookupUser users tweet.author_id).bind RawUser.username).getD "i"
        ++ "/status/" ++ pyStr tweet.id = _
    rw [h]
    rfl
  have huser : (format_tweet parseIso now users tweet).username = "@unknown" := by
    show "@" ++ ((lookupUser users tweet.author_id).bind RawUser.username).getD "unknown" = _
    rw [h]
    rfl
  refine ⟨hurl, huser, ?_⟩
  rw [hurl]
  intro heq
  have hlen := congrArg String.length heq
  rw [String.length_append, String.length_append] at hlen
  have h1 : ("https://twitter.com/i/status/" : String).length = 29 := rfl
  have h2 : ("https://twitter.com/unknown/status/" : String).length = 35 := rfl
  omega

theorem c10_witness :
    (format_tweet noParse 0 [] orphanTweet).url = "https://twitter.com/i/status/123" ∧
      (format_tweet noParse 0 [] orphanTweet).url ≠
        "https://twitter.com/unknown/status/" ++ pyStr orphanTweet.id := by
  have h := c10_url_fallback noParse 0 [] orphanTweet (by decide)
  exact ⟨h.1, h.2.2⟩

/-- C1: in the retry loop, while attempts keep answering 429, the wait
slept before retry number `n` (`n = 1, 2, ...`, i.e. the sleep at index
`n - 1` of the trace) is `rate_limit_wait * n` when the 429 response
carries no reset header (linear back-off), and `max(reset - now,
rate_limit_wait)` when a reset header with epoch value `reset` is present:
the first `m` back-off sleeps of any run whose first `m` attempts return
429 are exactly this closed form. -/
theorem c1_backoff_waits (st : ClientState) (query : String) (max_results : Int)
    (max_retries : Nat) (tok : TokenResp) (oracle : Nat → HttpResp)
    (parseIso : String → Option Int) (nowStart : Int) (nowAt : Nat → Int)
    (m : Nat) (hm : m ≤ max_retries)
    (h429 : ∀ k, k < m → (oracle k).status = 429) :
    (backoffSleeps (search_tweets st query max_results max_retries tok oracle
        parseIso nowStart nowAt).1).take m =
      (List.range m).map (fun n =>
        match (oracle n).reset with
        | some r => max (r - nowAt n) st.rate_limit_wait
        | none => st.rate_limit_wait * ((n : Int) + 1)) := by
  rw [search_tweets_eq]
  dsimp only
  rw [backoffSleeps_append, backoffSleeps_preEvents, List.nil_append]
  have h := searchGo_sleeps_of_429 st.rate_limit_wait max_retries
      { query := query, max_results := min (max max_results 10) 100 } oracle parseIso
      nowAt query m hm h429 (max_retries + 1) 0 (by omega) (by omega)
  simpa [List.range_eq_range', waitSpec] using h

theorem c1_witness :
    (backoffSleeps (search_tweets stCached "q" 10 3 tokOk oracleReset noParse 0
        (fun _ => 900)).1).take 3 = [60, 100, 180] := by
  have h := c1_backoff_waits stCached "q" 10 3 tokOk oracleReset noParse 0
      (fun _ => 900) 3 (by decide) (fun k _ => rfl)
  rw [h]
  decide

/-- C2 counterexample: with `max_retries = 1` and a provider answering 429
on every attempt, the call makes 2 HTTP requests in total: a further
request is issued after the 1st consecutive 429 response, whereas the claim
requires the call to fail after `maxRetries = 1` consecutive 429s with no
further HTTP call (1 request in total). -/
theorem c2_counterexample :
    httpCount (search_tweets stCached "q" 10 1 tokOk oracle429 noParse 0
        (fun _ => 0)).1 = 2 ∧ (2 : Nat) ≠ 1 := by decide

/-- C2 amended: the loop guard is `retry_count <= max_retries` and the
counter increases once per 429, so when every attempt answers 429 the call
makes exactly `max_retries + 1` HTTP requests (the initial attempt plus
`max_retries` retries) and then fails with the rate-limit error; no HTTP
call follows the `(max_retries + 1)`-th consecutive 429 response. -/
theorem c2_rate_limit_exhaustion (st : ClientState) (query : String)
    (max_results : Int) (max_retries : Nat) (tok : TokenResp)
    (oracle : Nat → HttpResp) (parseIso : String → Option Int)
    (nowStart : Int) (nowAt : Nat → Int)
    (h429 : ∀ k, (oracle k).status = 429) :
    (search_tweets st query max_results max_retries tok oracle parseIso
        nowStart nowAt).2 = SearchOutcome.rateLimitExceeded ∧
      httpCount (search_tweets st query max_results max_retries tok oracle
        parseIso nowStart nowAt).1 = max_retries + 1 := by
  rw [search_tweets_eq]
  dsimp only
  constructor
  · exact searchGo_outcome_of_429 st.rate_limit_wait max_retries _ oracle parseIso
      nowAt query h429 (max_retries + 1) 0
  · rw [httpCount_append, httpCount_preEvents, Nat.zero_add]
    exact searchGo_httpCount_of_429 st.rate_limit_wait max_retries _ oracle parseIso
      nowAt query h429 (max_retries + 1) 0 (by omega)

theorem c2_witness :
    (search_tweets stCached "q" 10 2 tokOk oracle429 noParse 0 (fun _ => 0)).2 =
        SearchOutcome.rateLimitExceeded ∧
      httpCount (search_tweets stCached "q" 10 2 tokOk oracle429 noParse 0
        (fun _ => 0)).1 = 2 + 1 :=
  c2_rate_limit_exhaustion stCached "q" 10 2 tokOk oracle429 noParse 0 (fun _ => 0)
    (fun _ => rfl)

/-- Any result a `search_tweets` call returns successfully is the
`buildResult` of some attempt's response body. -/
theorem search_tweets_success_eq (st : ClientState) (query : String)
    (max_results : Int) (max_retries : Nat) (tok : TokenResp)
    (oracle : Nat → HttpResp) (parseIso : String → Option Int)
    (nowStart : Int) (nowAt : Nat → Int) (evs : List Event) (r : SearchResult)
    (h : search_tweets st query max_results max_retries tok oracle parseIso
        nowStart nowAt = (evs, SearchOutcome.success r)) :
    ∃ k, r = buildResult parseIso (nowAt k) query (oracle k).body := by
  rw [search_tweets_eq, Prod.mk.injEq] at h
  obtain ⟨k, _, hk⟩ := searchGo_success_eq st.rate_limit_wait max_retries
      { query := query, max_results := min (max max_results 10) 100 } oracle parseIso
      nowAt query (max_retries + 1) 0 _ r (by rw [← h.2])
  exact ⟨k, hk⟩

/-- C3: every successful search returns its tweets sorted by `views`
descending (`Pairwise`, hence in particular every adjacent pair satisfies
`tweets[i].views >= tweets[i+1].views`), and the sort is stable: for every
views value `v`, the tweets of the result with `views = v` are exactly the
tweets of the normalized provider payload with `views = v`, in payload
order. -/
theorem c3_sorted_stable :
    (∀ (st : ClientState) (query : String) (max_results : Int) (max_retries : Nat)
        (tok : TokenResp) (oracle : Nat → HttpResp) (parseIso : String → Option Int)
        (nowStart : Int) (nowAt : Nat → Int) (evs : List Event) (r : SearchResult),
        search_tweets st query max_results max_retries tok oracle parseIso
            nowStart nowAt = (evs, SearchOutcome.success r) →
        List.Pairwise (fun a b => b.views ≤ a.views) r.tweets) ∧
      (∀ (parseIso : String → Option Int) (now : Int) (query : String)
        (data : RawPayload) (v : Int),
        (buildResult parseIso now query data).tweets.filter
            (fun t => decide (t.views = v)) =
          (process_response parseIso now data).filter
            (fun t => decide (t.views = v))) := by
  constructor
  · intro st query mrs mr tok oracle pI nS nA evs r h
    obtain ⟨k, rfl⟩ := search_tweets_success_eq st query mrs mr tok oracle pI nS nA
      evs r h
    exact buildResult_pairwise pI (nA k) query (oracle k).body
  · intro pI now q d v
    exact buildResult_filter pI now q d v

theorem c3_witness :
    List.Pairwise (fun a b => b.views ≤ a.views)
      (buildResult noParse 0 "q" twoPayload).tweets :=
  c3_sorted_stable.1 stCached "q" 10 3 tokOk oracleTwo noParse 0 (fun _ => 0)
    [Event.httpGet { query := "q", max_results := 10 }]
    (buildResult noParse 0 "q" twoPayload) (by decide)

/-- C4: every successful search result satisfies
`totalResults = tweets.length` and echoes the input query, and a successful
response whose `data` array is absent or empty yields the empty result (a
valid success, not an error). -/
theorem c4_result_invariants :
    (∀ (st : ClientState) (query : String) (max_results : Int) (max_retries : Nat)
        (tok : TokenResp) (oracle : Nat → HttpResp) (parseIso : String → Option Int)
        (nowStart : Int) (nowAt : Nat → Int) (evs : List Event) (r : SearchResult),
        search_tweets st query max_results max_retries tok oracle parseIso
            nowStart nowAt = (evs, SearchOutcome.success r) →
        r.totalResults = r.tweets.length ∧ r.query = query) ∧
      (∀ (parseIso : String → Option Int) (now : Int) (query : String)
        (data : RawPayload), data.data = none ∨ data.data = some [] →
        buildResult parseIso now query data =
          { tweets := [], totalResults := 0, query := query }) := by
  constructor
  · intro st query mrs mr tok oracle pI nS nA evs r h
    obtain ⟨k, rfl⟩ := search_tweets_success_eq st query mrs mr tok oracle pI nS nA
      evs r h
    exact buildResult_invariants pI (nA k) query (oracle k).body
  · intro pI now q d hd
    rcases hd with hd | hd <;> simp [buildResult, hd]

theorem c4_witness :
    ({ tweets := [], totalResults := 0, query := "q" } : SearchResult).totalResults =
        ({ tweets := [], totalResults := 0, query := "q" } : SearchResult).tweets.length ∧
      ({ tweets := [], totalResults := 0, query := "q" } : SearchResult).query = "q" :=
  c4_result_invariants.1 stCached "q" 10 3 tokOk oracleEmpty noParse 0 (fun _ => 0)
    [Event.httpGet { query := "q", max_results := 10 }]
    { tweets := [], totalResults := 0, query := "q" } (by decide)

/-- C6 counterexample: a search call with an empty query string does not
fail with a validation error before any outbound HTTP request — the
function contains no query check at all: with an empty query the call
issues the search GET (with the empty query forwarded in the parameters)
and here returns a successful result. -/
theorem c6_counterexample :
    search_tweets stCached "" 10 3 tokOk oracleEmpty noParse 0 (fun _ => 0) =
      ([Event.httpGet { query := "", max_results := 10 }],
        SearchOutcome.success { tweets := [], totalResults := 0, query := "" }) := by
  decide

/-- C6 amended: `search_tweets` performs no validation of the query: a call
with an empty query string always issues at least one outbound HTTP search
request, and every such request carries the empty query unchanged as its
query parameter (the only empty-query check in the repository is in the CLI
`main`, which returns before ever calling `search_tweets`). -/
theorem c6_no_validation (st : ClientState) (max_results : Int)
    (max_retries : Nat) (tok : TokenResp) (oracle : Nat → HttpResp)
    (parseIso : String → Option Int) (nowStart : Int) (nowAt : Nat → Int) :
    1 ≤ httpCount (search_tweets st "" max_results max_retries tok oracle
        parseIso nowStart nowAt).1 ∧
      ∀ p, Event.httpGet p ∈ (search_tweets st "" max_results max_retries tok
          oracle parseIso nowStart nowAt).1 → p.query = "" := by
  constructor
  · rw [search_tweets_eq]
    dsimp only
    rw [httpCount_append, httpCount_preEvents, Nat.zero_add]
    exact searchGo_httpCount_pos st.rate_limit_wait max_retries _ oracle parseIso
      nowAt "" max_retries 0 (Nat.zero_le _)
  · intro p hp
    have hpp := search_tweets_params_mem st "" max_results max_retries tok oracle
      parseIso nowStart nowAt p hp
    subst hpp
    rfl

theorem c6_witness :
    1 ≤ httpCount (search_tweets stCached "" 10 3 tokOk oracleEmpty noParse 0
        (fun _ => 0)).1 ∧
      ({ query := "", max_results := 10 } : ReqParams).query = "" := by
  have h := c6_no_validation stCached 10 3 tokOk oracleEmpty noParse 0 (fun _ => 0)
  exact ⟨h.1, h.2 { query := "", max_results := 10 } (by decide)⟩

/-- C9 counterexample: `get_bearer_token` never consults the cache — after
a first call has successfully obtained and cached a token, a second
`get_bearer_token` call still performs an outbound token request, whereas
the claim requires every subsequent call to be a no-op making no HTTP
request. -/
theorem c9_counterexample :
    (get_bearer_token stFresh tokOk).2.bearer_token = some "tok" ∧
      (get_bearer_token (get_bearer_token stFresh tokOk).2 tokOk).1 =
        [Event.tokenRequest] ∧
      [Event.tokenRequest] ≠ ([] : List Event) := by decide

/-- C9 amended: token caching is enforced at the call sites rather than
inside `get_bearer_token` itself: a `search_tweets` call performs the token
exchange exactly when no truthy token is cached (lines 117-119), and never
afterwards — its trace holds no token request beyond (possibly) the very
first event, so retries inside the loop never re-fetch the token. -/
theorem c9_token_cached_at_call_sites (st : ClientState) (query : String)
    (max_results : Int) (max_retries : Nat) (tok : TokenResp)
    (oracle : Nat → HttpResp) (parseIso : String → Option Int)
    (nowStart : Int) (nowAt : Nat → Int) :
    tokenCount (search_tweets st query max_results max_retries tok oracle
        parseIso nowStart nowAt).1 =
        (if isTruthy st.bearer_token then 0 else 1) ∧
      tokenCount ((search_tweets st query max_results max_retries tok oracle
        parseIso nowStart nowAt).1.drop 1) = 0 := by
  have hgo := searchGo_no_token st.rate_limit_wait max_retries
      { query := query, max_results := min (max max_results 10) 100 } oracle parseIso
      nowAt query (max_retries + 1) 0
  rw [search_tweets_eq]
  dsimp only
  constructor
  · rw [tokenCount_append, tokenCount_preEvents, hgo, Nat.add_zero]
  · rw [List.drop_append_eq_append_drop, tokenCount_append,
      tokenCount_preEvents_tail, Nat.zero_add]
    have hd := tokenCount_drop_le (searchGo st.rate_limit_wait max_retries
        { query := query, max_results := min (max max_results 10) 100 } oracle parseIso
        nowAt query (max_retries + 1) 0).1 (1 - (preEvents st nowStart).length)
    omega
